import Mathlib

/-!
Verification development for the cluster-api-provider-aws reconciliation core:
the subnet topology planner (`pkg/cloud/services/network/subnets.go`) and the
machine-pool scaling-group differ / reconciliation state machine.

Cloud calls (DescribeSubnets, CreateSubnet, tagging, GetASGByName, ...) are
modelled as environment oracles supplied to the embedded functions.  Go panics
(nil dereference, index out of range) are modelled as distinguished error
values, because the deferred `SetSubnets` still runs while a panic unwinds.
-/

/-- Errors of a reconciliation pass.  `failure` is an ordinary returned error;
`panicNilDeref` and `panicIndex` model Go runtime panics. -/
inductive RErr where
  | failure : String → RErr
  | panicNilDeref : RErr
  | panicIndex : RErr
deriving DecidableEq, Repr

/-- An IPv4 (or IPv6) CIDR range, abstracted to an interval of addresses
`[base, base + size)` over natural numbers. -/
structure CidrBlock where
  base : Nat
  size : Nat
deriving DecidableEq, Repr

/-- Address membership in a CIDR range. -/
def CidrBlock.containsAddr (c : CidrBlock) (a : Nat) : Prop :=
  c.base ≤ a ∧ a < c.base + c.size

instance (c : CidrBlock) (a : Nat) : Decidable (c.containsAddr a) := by
  unfold CidrBlock.containsAddr; infer_instance

/-- Two CIDR ranges do not overlap: one ends before the other starts. -/
def CidrBlock.disjointWith (c d : CidrBlock) : Prop :=
  c.base + c.size ≤ d.base ∨ d.base + d.size ≤ c.base

instance (c d : CidrBlock) : Decidable (c.disjointWith d) := by
  unfold CidrBlock.disjointWith; infer_instance

/-- Embedding of `infrav1.SubnetSpec` (desired or observed subnet). -/
structure SubnetSpec where
  id : String
  cidrBlock : CidrBlock
  ipv6CidrBlock : Option CidrBlock
  availabilityZone : String
  isPublic : Bool
  isIPv6 : Bool
  routeTableID : Option String
  natGatewayID : Option String
  tags : List (String × String)
deriving DecidableEq, Repr

/-- Modelled from the spec: `infrav1.Subnets.FindEqual` is not under `src/`;
per the spec two subnet specs are equal for matching purposes by
(CIDR, zone) identity, independent of id.  Returns the first observed entry
with the same CIDR block and availability zone. -/
def findEqual (existing : List SubnetSpec) (s : SubnetSpec) : Option SubnetSpec :=
  existing.find? fun x =>
    decide (x.cidrBlock = s.cidrBlock) && decide (x.availabilityZone = s.availabilityZone)

/-- Modelled from the spec: `cidr.SplitIntoSubnetsIPv4` (pkg/internal/cidr)
is not under `src/`; per the spec the CIDR is "partitioned into `n`
equal-size blocks".  Fails (returns `none`) when an equal partition into `n`
non-empty blocks does not exist. -/
def splitIntoSubnetsIPv4 (c : CidrBlock) (n : Nat) : Option (List CidrBlock) :=
  if n ∣ c.size ∧ 0 < n then
    some ((List.range n).map fun i => ⟨c.base + i * (c.size / n), c.size / n⟩)
  else
    none

/-- Modelled from the spec: `cidr.SplitIntoSubnetsIPv6` is not under `src/`;
the spec describes it as "an analogous split of the IPv6 block", so it is
the same equal partition over abstract address ranges. -/
def splitIntoSubnetsIPv6 (c : CidrBlock) (n : Nat) : Option (List CidrBlock) :=
  splitIntoSubnetsIPv4 c n

/-- Availability-zone selection scheme (`infrav1.AZSelectionScheme`). -/
inductive AZSelectionScheme where
  | ordered
  | random
deriving DecidableEq, Repr

/-- Embedding of the parts of `infrav1.VPCSpec` used by `subnets.go`. -/
structure VPCSpec where
  id : String
  cidrBlock : CidrBlock
  ipv6 : Option CidrBlock
  availabilityZoneUsageLimit : Option Nat
  availabilityZoneSelection : Option AZSelectionScheme
  /-- Whether the VPC carries the cluster-owned tag. -/
  ownedTag : Bool
deriving DecidableEq, Repr

/-- Modelled from the spec: `VPCSpec.IsUnmanaged` is not under `src/`; an
unmanaged (externally owned) VPC is one that exists (non-empty id) but is not
tagged as owned by the cluster. -/
def VPCSpec.isUnmanaged (v : VPCSpec) : Bool :=
  decide (v.id ≠ "") && !v.ownedTag

/-- Embedding of `VPCSpec.IsIPv6Enabled`: the VPC has an IPv6 block. -/
def VPCSpec.isIPv6Enabled (v : VPCSpec) : Bool :=
  v.ipv6.isSome

/-- Constant `defaultMaxNumAZs` from `subnets.go`. -/
def defaultMaxNumAZs : Nat := 3

/-- Zone limiting and selection in `getDefaultSubnets` (subnets.go lines
210-231): when more zones are available than the usage limit, sort (ordered
scheme) or shuffle (random scheme, via the `shuffle` oracle) and truncate. -/
def defaultZones (vpc : VPCSpec) (zones0 : List String)
    (shuffle : List String → List String) : List String :=
  let maxZones := vpc.availabilityZoneUsageLimit.getD defaultMaxNumAZs
  let scheme := vpc.availabilityZoneSelection.getD AZSelectionScheme.ordered
  if zones0.length > maxZones then
    let z := match scheme with
      | AZSelectionScheme.random => shuffle zones0
      | AZSelectionScheme.ordered => zones0.insertionSort (· ≤ ·)
    z.take maxZones
  else zones0

/-- The per-zone subnet construction loop of `getDefaultSubnets` (subnets.go
lines 269-290): for each zone, one public subnet (from the sub-CIDRs of
block 0) and one private subnet (from the remaining top-level blocks), with
optional IPv6 blocks.  Indexing past the end of a CIDR list is a Go panic. -/
def buildZoneSubnets :
    List String → List CidrBlock → List CidrBlock →
    Option (List CidrBlock × List CidrBlock) → Except RErr (List SubnetSpec)
  | [], _, _, _ => .ok []
  | z :: zs, pubs, privs, v6 =>
    match pubs, privs with
    | p :: ps, q :: qs =>
      let publicSubnet : SubnetSpec :=
        { id := "", cidrBlock := p, ipv6CidrBlock := none, availabilityZone := z,
          isPublic := true, isIPv6 := false, routeTableID := none,
          natGatewayID := none, tags := [] }
      let privateSubnet : SubnetSpec :=
        { id := "", cidrBlock := q, ipv6CidrBlock := none, availabilityZone := z,
          isPublic := false, isIPv6 := false, routeTableID := none,
          natGatewayID := none, tags := [] }
      match v6 with
      | none =>
        match buildZoneSubnets zs ps qs none with
        | .error e => .error e
        | .ok rest => .ok (publicSubnet :: privateSubnet :: rest)
      | some (pub6, priv6) =>
        match pub6, priv6 with
        | p6 :: p6s, q6 :: q6s =>
          let publicSubnet := { publicSubnet with ipv6CidrBlock := some p6, isIPv6 := true }
          let privateSubnet := { privateSubnet with ipv6CidrBlock := some q6, isIPv6 := true }
          match buildZoneSubnets zs ps qs (some (p6s, q6s)) with
          | .error e => .error e
          | .ok rest => .ok (publicSubnet :: privateSubnet :: rest)
        | _, _ => .error .panicIndex
    | _, _ => .error .panicIndex

/-- Embedding of `getDefaultSubnets` (subnets.go lines 204-293).  The
available zones (cloud call `getAvailableZones`) and the random shuffle are
environment inputs.  The VPC IPv4 CIDR is split into `len(zones)+1` blocks;
block 0 is sub-divided into the public subnet CIDRs, the remaining blocks
become the private subnet CIDRs; for IPv6 the last block is sub-divided for
the public IPv6 ranges and the blocks after the first become private. -/
def getDefaultSubnets (vpc : VPCSpec) (zones0 : List String)
    (shuffle : List String → List String) : Except RErr (List SubnetSpec) :=
  let zones := defaultZones vpc zones0 shuffle
  let numSubnets := zones.length + 1
  match splitIntoSubnetsIPv4 vpc.cidrBlock numSubnets with
  | none => .error (.failure "failed splitting VPC CIDR into subnets")
  | some subnetCIDRs =>
    match subnetCIDRs with
    | [] => .error .panicIndex
    | c0 :: restCIDRs =>
      match splitIntoSubnetsIPv4 c0 zones.length with
      | none => .error (.failure "failed splitting CIDR into public subnets")
      | some publicSubnetCIDRs =>
        let privateSubnetCIDRs := restCIDRs
        match vpc.ipv6 with
        | none => buildZoneSubnets zones publicSubnetCIDRs privateSubnetCIDRs none
        | some v6 =>
          match splitIntoSubnetsIPv6 v6 numSubnets with
          | none => .error (.failure "failed splitting IPv6 VPC CIDR into subnets")
          | some ipv6SubnetCIDRs =>
            match ipv6SubnetCIDRs.getLast? with
            | none => .error .panicIndex
            | some lastV6 =>
              match splitIntoSubnetsIPv6 lastV6 zones.length with
              | none => .error (.failure "failed splitting IPv6 CIDR into public subnets")
              | some publicIPv6SubnetCIDRs =>
                let privateIPv6SubnetCIDRs := ipv6SubnetCIDRs.drop 1
                buildZoneSubnets zones publicSubnetCIDRs privateSubnetCIDRs
                  (some (publicIPv6SubnetCIDRs, privateIPv6SubnetCIDRs))

/-- Environment oracles for a `reconcileSubnets` pass: results of the cloud
calls it performs. -/
structure NetworkEnv where
  /-- Result of `describeVpcSubnets` (the observed subnets). -/
  describeResult : Except RErr (List SubnetSpec)
  /-- Result of `getAvailableZones`. -/
  zones : Except RErr (List String)
  /-- Permutation used by `rand.Shuffle` for the random AZ selection scheme. -/
  shuffle : List String → List String
  /-- Whether `tags.Ensure` (wrapped in the retry primitive) ultimately fails
  for an existing subnet, keyed by the existing subnet id. -/
  tagFails : String → Bool
  /-- Result of `scope.PatchObject` after setting default subnets. -/
  patchResult : Except RErr Unit
  /-- Result of `createSubnet` for a given desired subnet. -/
  createResult : SubnetSpec → Except RErr SubnetSpec

/-- The scope fields read by `reconcileSubnets`. -/
structure NetworkScope where
  name : String
  subnets : List SubnetSpec
  vpc : VPCSpec
  secondaryCidrBlock : Option CidrBlock
  tagUnmanagedNetworkResources : Bool

/-- Result of a `reconcileSubnets` pass.  `subnets` is the working list that
the deferred `SetSubnets` writes back into the scope on every return path
(including error returns and panics, since Go runs deferred functions while
unwinding). -/
structure SubnetsOutcome where
  subnets : List SubnetSpec
  events : List String
  result : Except RErr Unit

/-- A secondary private subnet spec (subnets.go lines 116-123). -/
def secondarySubnet (c : CidrBlock) (z : String) : SubnetSpec :=
  { id := "", cidrBlock := c, ipv6CidrBlock := none, availabilityZone := z,
    isPublic := false, isIPv6 := false, routeTableID := none,
    natGatewayID := none,
    tags := [("kubernetes.io/cluster-api-provider-aws/association", "secondary")] }

/-- The loop over the secondary sub-CIDRs (subnets.go lines 115-128): index
`i` runs over the split CIDRs, `zones[i]` panics when out of range, and the
new spec is appended only when no equal (CIDR, zone) entry exists among the
observed subnets. -/
def appendSecondary (existing : List SubnetSpec) (zones : List String) :
    Nat → List CidrBlock → List SubnetSpec → List SubnetSpec × Option RErr
  | _, [], subnets => (subnets, none)
  | i, c :: rest, subnets =>
    match zones[i]? with
    | none => (subnets, some .panicIndex)
    | some z =>
      let s := secondarySubnet c z
      let subnets' := match findEqual existing s with
        | none => subnets ++ [s]
        | some _ => subnets
      appendSecondary existing zones (i + 1) rest subnets'

/-- The secondary IPv4 CIDR branch of `reconcileSubnets` (subnets.go lines
104-129).  `*s.scope.VPC().AvailabilityZoneUsageLimit` is dereferenced with
no nil check: a missing limit is a nil-pointer panic. -/
def secondaryPhase (env : NetworkEnv) (scope : NetworkScope)
    (subnets existing : List SubnetSpec) : List SubnetSpec × Option RErr :=
  match scope.secondaryCidrBlock with
  | none => (subnets, none)
  | some sec =>
    match scope.vpc.availabilityZoneUsageLimit with
    | none => (subnets, some .panicNilDeref)
    | some lim =>
      match splitIntoSubnetsIPv4 sec lim with
      | none => (subnets, some (.failure "failed splitting secondary CIDR"))
      | some cidrs =>
        match env.zones with
        | .error e => (subnets, some e)
        | .ok zones => appendSecondary existing zones 0 cidrs subnets

/-- The tag-sync / match loop of `reconcileSubnets` (subnets.go lines
131-164), iterating over the index list `0 .. len-1` fixed at loop entry
(updates via `List.set` preserve the length, so every lookup succeeds).  For
each desired subnet with an observed match: a tagging failure on a managed
VPC returns an error; on an unmanaged VPC it records a warning event and
breaks out of the loop; on success the observed subnet is deep copied onto
the desired entry.  A desired subnet with no observed match is an error on
an unmanaged VPC and is skipped (created later) on a managed one. -/
def ensureTagsLoopGo (unmanagedVPC : Bool) (tagFails : String → Bool)
    (existing : List SubnetSpec) :
    List Nat → List SubnetSpec → List String →
    List SubnetSpec × List String × Option RErr
  | [], subnets, events => (subnets, events, none)
  | i :: rest, subnets, events =>
    match subnets[i]? with
    | none => (subnets, events, none)
    | some sub =>
      match findEqual existing sub with
      | some existingSubnet =>
        if tagFails existingSubnet.id then
          if !unmanagedVPC then
            (subnets, events ++ ["FailedTagSubnet"],
              some (.failure "failed to ensure tags on subnet"))
          else
            (subnets, events ++ ["FailedTagSubnet"], none)
        else
          ensureTagsLoopGo unmanagedVPC tagFails existing rest
            (subnets.set i existingSubnet) events
      | none =>
        if unmanagedVPC then
          (subnets, events ++ ["FailedMatchSubnet"],
            some (.failure "using unmanaged vpc and subnet specified but it does not exist in vpc"))
        else
          ensureTagsLoopGo unmanagedVPC tagFails existing rest subnets events

/-- The tag-sync / match loop over all indices of the working subnet list. -/
def ensureTagsLoop (unmanagedVPC : Bool) (tagFails : String → Bool)
    (existing : List SubnetSpec) (subnets : List SubnetSpec)
    (events : List String) : List SubnetSpec × List String × Option RErr :=
  ensureTagsLoopGo unmanagedVPC tagFails existing
    (List.range subnets.length) subnets events

/-- The private/public count checks after matching (subnets.go lines
166-181): a managed VPC needs at least one private and one public subnet, an
unmanaged one at least one subnet of any kind. -/
def subnetCountChecks (unmanagedVPC : Bool) (subnets : List SubnetSpec) :
    Option (String × RErr) :=
  if !unmanagedVPC then
    if (subnets.filter fun s => !s.isPublic).length < 1 then
      some ("FailedNoPrivateSubnet", .failure "expected at least 1 private subnet but got 0")
    else if (subnets.filter fun s => s.isPublic).length < 1 then
      some ("FailedNoPublicSubnet", .failure "expected at least 1 public subnet but got 0")
    else none
  else
    if subnets.length < 1 then
      some ("FailedNoSubnet", .failure "expected at least 1 subnet but got 0")
    else none

/-- The creation loop of `reconcileSubnets` (subnets.go lines 184-197):
entries without an id are created via the cloud API; on the first creation
failure the pass returns, leaving already-created entries merged in. -/
def createMissingSubnets (create : SubnetSpec → Except RErr SubnetSpec) :
    List SubnetSpec → List SubnetSpec × Option RErr
  | [] => ([], none)
  | s :: rest =>
    if s.id = "" then
      match create s with
      | .error e => (s :: rest, some e)
      | .ok nsn =>
        let (r, e) := createMissingSubnets create rest
        (nsn :: r, e)
    else
      let (r, e) := createMissingSubnets create rest
      (s :: r, e)

/-- Phases of `reconcileSubnets` from the secondary-CIDR branch onward
(subnets.go lines 104-201). -/
def reconcileSubnetsCore (env : NetworkEnv) (scope : NetworkScope)
    (subnets : List SubnetSpec) (events : List String)
    (existing : List SubnetSpec) : SubnetsOutcome :=
  let unmanagedVPC := scope.vpc.isUnmanaged
  match secondaryPhase env scope subnets existing with
  | (subnets1, some e) => ⟨subnets1, events, .error e⟩
  | (subnets1, none) =>
    match ensureTagsLoop unmanagedVPC env.tagFails existing subnets1 events with
    | (subnets2, events2, some e) => ⟨subnets2, events2, .error e⟩
    | (subnets2, events2, none) =>
      match subnetCountChecks unmanagedVPC subnets2 with
      | some (ev, e) => ⟨subnets2, events2 ++ [ev], .error e⟩
      | none =>
        if unmanagedVPC then ⟨subnets2, events2, .ok ()⟩
        else
          match createMissingSubnets env.createResult subnets2 with
          | (subnets3, some e) => ⟨subnets3, events2, .error e⟩
          | (subnets3, none) => ⟨subnets3, events2, .ok ()⟩

/-- The second `describeVpcSubnets` site (subnets.go lines 96-102), taken
when the first (line 62) did not run. -/
def reconcileSubnetsMain (env : NetworkEnv) (scope : NetworkScope)
    (subnets : List SubnetSpec) (events : List String)
    (described : Option (List SubnetSpec)) : SubnetsOutcome :=
  match described with
  | none =>
    match env.describeResult with
    | .error e => ⟨subnets, events, .error e⟩
    | .ok ex => reconcileSubnetsCore env scope subnets events ex
  | some ex => reconcileSubnetsCore env scope subnets events ex

/-- The empty-subnet default branch of `reconcileSubnets` (subnets.go lines
71-94): with no declared subnets, an unmanaged VPC is a configuration error
and a managed one receives the planned default subnets, persisted via
`PatchObject`. -/
def reconcileSubnetsDefaults (env : NetworkEnv) (scope : NetworkScope)
    (described : Option (List SubnetSpec)) : SubnetsOutcome :=
  let subnets := scope.subnets
  let unmanagedVPC := scope.vpc.isUnmanaged
  if subnets.isEmpty then
    if unmanagedVPC then
      ⟨subnets, ["FailedNoSubnets"],
        .error (.failure "no subnets specified, you must specify the subnets when using an umanaged vpc")⟩
    else
      match env.zones with
      | .error e => ⟨subnets, ["FailedDefaultSubnets"], .error e⟩
      | .ok zs =>
        match getDefaultSubnets scope.vpc zs env.shuffle with
        | .error e => ⟨subnets, ["FailedDefaultSubnets"], .error e⟩
        | .ok ds =>
          match env.patchResult with
          | .error e => ⟨ds, [], .error e⟩
          | .ok _ => reconcileSubnetsMain env scope ds [] described
  else
    reconcileSubnetsMain env scope subnets [] described

/-- Embedding of `reconcileSubnets` (subnets.go lines 48-202).  The subnets
component of the outcome is what the deferred `SetSubnets` writes back into
the scope, on every return path.  When `TagUnmanagedNetworkResources` is set
the observed subnets are described before the default-subnet branch,
otherwise after it. -/
def reconcileSubnets (env : NetworkEnv) (scope : NetworkScope) : SubnetsOutcome :=
  if scope.tagUnmanagedNetworkResources then
    match env.describeResult with
    | .error e => ⟨scope.subnets, [], .error e⟩
    | .ok ex => reconcileSubnetsDefaults env scope (some ex)
  else
    reconcileSubnetsDefaults env scope none

/-- Modelled from the spec: the mixed-instances policy of
`expinfrav1.MixedInstancesPolicy` (allocation strategy + instance-type
overrides); the API types are not under `src/`. -/
structure InstancesDistribution where
  onDemandAllocationStrategy : String
deriving DecidableEq, Repr

/-- Modelled from the spec: `expinfrav1.MixedInstancesPolicy`; an empty
policy (all fields unset) is a distinct value from an absent policy. -/
structure MixedInstancesPolicy where
  instancesDistribution : Option InstancesDistribution
  overrides : Option (List String)
deriving DecidableEq, Repr

/-- Modelled from the spec: the explicit named subset of scaling processes
(`expinfrav1.Processes`), one optional flag per known process name. -/
structure Processes where
  launch : Option Bool
  terminate : Option Bool
  addToLoadBalancer : Option Bool
  alarmNotification : Option Bool
  azRebalance : Option Bool
  healthCheck : Option Bool
  instanceRefresh : Option Bool
  replaceUnhealthy : Option Bool
  scheduledActions : Option Bool
deriving DecidableEq, Repr

/-- Modelled from the spec: `expinfrav1.SuspendProcessesTypes` — either the
"all" flag or an explicit named subset. -/
structure SuspendProcessesTypes where
  all : Bool
  processes : Option Processes
deriving DecidableEq, Repr

/-- Modelled from the spec: the "all known process names" constant list
(matching the process names in the controller test). -/
def allKnownProcesses : List String :=
  ["ScheduledActions", "Launch", "Terminate", "AddToLoadBalancer",
   "AlarmNotification", "AZRebalance", "InstanceRefresh", "HealthCheck",
   "ReplaceUnhealthy"]

/-- Names of the processes whose flag is set to true in an explicit subset. -/
def Processes.toNameList (p : Processes) : List String :=
  (if p.launch.getD false then ["Launch"] else []) ++
  (if p.terminate.getD false then ["Terminate"] else []) ++
  (if p.addToLoadBalancer.getD false then ["AddToLoadBalancer"] else []) ++
  (if p.alarmNotification.getD false then ["AlarmNotification"] else []) ++
  (if p.azRebalance.getD false then ["AZRebalance"] else []) ++
  (if p.healthCheck.getD false then ["HealthCheck"] else []) ++
  (if p.instanceRefresh.getD false then ["InstanceRefresh"] else []) ++
  (if p.replaceUnhealthy.getD false then ["ReplaceUnhealthy"] else []) ++
  (if p.scheduledActions.getD false then ["ScheduledActions"] else [])

/-- Modelled from the spec: the desired suspend set "resolves from either the
all-known-process-names constant list or the explicit named subset". -/
def resolveSuspendProcesses : Option SuspendProcessesTypes → List String
  | none => []
  | some t =>
    if t.all then allKnownProcesses
    else match t.processes with
      | none => []
      | some p => p.toNameList

/-- Modelled from the spec: `expinfrav1.AutoScalingGroup`, the observed
scaling group state rebuilt from the cloud API on each pass. -/
structure AutoScalingGroup where
  name : String
  desiredCapacity : Option Int
  maxSize : Int
  minSize : Int
  capacityRebalance : Bool
  mixedInstancesPolicy : Option MixedInstancesPolicy
  currentlySuspendProcesses : List String
  subnets : List String
  status : Option String
deriving DecidableEq, Repr

/-- Modelled from the spec: the scaling-group status value reported while the
cloud is deleting the group (`expinfrav1.ASGStatusDeleteInProgress`). -/
def asgStatusDeleteInProgress : String := "Delete in progress"

/-- Modelled from the spec: `expinfrav1.AWSMachinePoolSpec`, the desired
machine-pool specification fields compared by the differ. -/
structure AWSMachinePoolSpec where
  minSize : Int
  maxSize : Int
  capacityRebalance : Bool
  mixedInstancesPolicy : Option MixedInstancesPolicy
  suspendProcesses : Option SuspendProcessesTypes
  providerID : String
deriving DecidableEq, Repr

/-- Modelled from the spec: the `AWSMachinePool` object — desired spec plus
the metadata and status fields the reconciler touches (finalizer token list,
ready flag, recorded failure reason). -/
structure AWSMachinePool where
  finalizers : List String
  spec : AWSMachinePoolSpec
  statusReady : Bool
  failureReason : Option String
deriving DecidableEq, Repr

/-- Modelled from the spec: the CAPI `MachinePool` spec (replica count,
optional and possibly externally managed). -/
structure MachinePoolSpec where
  replicas : Option Int
deriving DecidableEq, Repr

/-- Modelled from the spec: the CAPI `MachinePool` object with its
annotations. -/
structure MachinePool where
  annotations : List (String × String)
  spec : MachinePoolSpec
deriving DecidableEq, Repr

/-- Modelled from the spec: `scope.MachinePoolScope` — the pair of
caller-owned desired objects plus the cluster-readiness inputs the normal
pass consults. -/
structure MachinePoolScope where
  machinePool : MachinePool
  awsMachinePool : AWSMachinePool
  infrastructureReady : Bool
  bootstrapDataSecretName : Option String
deriving DecidableEq, Repr

/-- Annotation key marking a pool whose replicas are externally managed
(`scope.ReplicasManagedByAnnotation`). -/
def replicasManagedByKey : String := "cluster.x-k8s.io/replicas-managed-by"

/-- Annotation value for the external autoscaler
(`scope.ExternalAutoscalerReplicasManagedByAnnotationValue`). -/
def externalAutoscalerAnnotationValue : String := "external-autoscaler"

/-- Modelled from the spec: a pool is externally managed when the
replicas-managed-by annotation carries the external-autoscaler value. -/
def replicasExternallyManaged (m : MachinePoolScope) : Bool :=
  m.machinePool.annotations.contains
    (replicasManagedByKey, externalAutoscalerAnnotationValue)

/-- Unordered, duplicate-independent equality of two string lists. -/
def sameStringSet (a b : List String) : Bool :=
  a.all (b.contains ·) && b.all (a.contains ·)

/-- Modelled from the spec: `asgNeedsUpdates` — the pure differ.  Any
mismatch in the fixed comparison order returns true: (1) replicas vs observed
desired capacity, unset treated as 0, skipped for externally managed pools;
(2) max size; (3) min size; (4) capacity rebalance; (5) deep equality of the
mixed-instances policy; (6) the resolved suspend-process set vs the currently
suspended set, as unordered sets. -/
def asgNeedsUpdates (m : MachinePoolScope) (existingASG : AutoScalingGroup) : Bool :=
  (!replicasExternallyManaged m &&
    !decide (m.machinePool.spec.replicas.getD 0 = existingASG.desiredCapacity.getD 0))
  || !decide (m.awsMachinePool.spec.maxSize = existingASG.maxSize)
  || !decide (m.awsMachinePool.spec.minSize = existingASG.minSize)
  || !decide (m.awsMachinePool.spec.capacityRebalance = existingASG.capacityRebalance)
  || !decide (m.awsMachinePool.spec.mixedInstancesPolicy = existingASG.mixedInstancesPolicy)
  || !sameStringSet (resolveSuspendProcesses m.awsMachinePool.spec.suspendProcesses)
       existingASG.currentlySuspendProcesses

/-- Elements of `a` that are not in `b`, deduplicated. -/
def stringSetDifference (a b : List String) : List String :=
  (a.filter fun x => !b.contains x).dedup

/-- Modelled from the spec: the suspend/resume delta — toSuspend is the
resolved desired set minus the observed currently-suspended set, toResume the
observed set minus the desired one, both deduplicated. -/
def processDelta (desired : Option SuspendProcessesTypes)
    (observed : List String) : List String × List String :=
  let d := resolveSuspendProcesses desired
  (stringSetDifference d observed, stringSetDifference observed d)

/-- Cloud-provider operations issued during a machine-pool pass. -/
inductive CloudCall where
  | reconcileLaunchTemplate
  | createASG
  | updateASG
  | deleteASG
  | suspendProcesses (name : String) (ps : List String)
  | resumeProcesses (name : String) (ps : List String)
deriving DecidableEq, Repr

/-- Finalizer token owned by the machine-pool reconciler
(`expinfrav1.MachinePoolFinalizer`). -/
def machinePoolFinalizer : String := "awsmachinepool.infrastructure.cluster.x-k8s.io"

/-- Modelled from the spec: add the reconciler-owned finalizer token if
absent (idempotent, touches no other token). -/
def addFinalizer (m : MachinePoolScope) : MachinePoolScope :=
  if m.awsMachinePool.finalizers.contains machinePoolFinalizer then m
  else
    { m with awsMachinePool :=
      { m.awsMachinePool with
        finalizers := m.awsMachinePool.finalizers ++ [machinePoolFinalizer] } }

/-- Modelled from the spec: remove only the reconciler-owned finalizer token,
leaving every other token untouched. -/
def removeFinalizer (m : MachinePoolScope) : MachinePoolScope :=
  { m with awsMachinePool :=
    { m.awsMachinePool with
      finalizers := m.awsMachinePool.finalizers.filter (· ≠ machinePoolFinalizer) } }

/-- Modelled from the spec: when the pool is externally managed and the
observed desired capacity diverges from the desired replica count, the
observed desired capacity is copied back into the desired replica count
(one-directional sync from cloud truth to the desired spec). -/
def syncExternallyManagedReplicas (m : MachinePoolScope)
    (existingASG : AutoScalingGroup) : MachinePoolScope :=
  if replicasExternallyManaged m &&
      !decide (m.machinePool.spec.replicas.getD 0 = existingASG.desiredCapacity.getD 0) then
    { m with machinePool :=
      { m.machinePool with spec := { replicas := existingASG.desiredCapacity } } }
  else m

/-- Environment oracles for a normal machine-pool reconciliation pass. -/
structure ASGEnv where
  /-- Result of `ReconcileLaunchTemplate`. -/
  launchTemplateResult : Except RErr Unit
  /-- Result of the `GetASGByName` lookup: error, absent, or found. -/
  getASGByName : Except RErr (Option AutoScalingGroup)
  /-- Whether the desired subnet-id list differs (order-independent) from the
  subnet ids currently attached to the group. -/
  subnetsChanged : Bool

/-- Outcome of a normal machine-pool pass: the (possibly updated) scope, the
cloud calls issued, and the pass result. -/
structure NormalOutcome where
  scope : MachinePoolScope
  calls : List CloudCall
  result : Except RErr Unit
deriving Repr

/-- Modelled from the spec: the normal reconciliation pass of the machine
pool controller (`reconcileNormal`; only its test is under `src/`).
Short-circuit order: recorded failure reason; add finalizer; wait states for
cluster infrastructure and bootstrap data (clean, error-free returns);
launch-template reconcile; scaling-group lookup.  When the group is absent
it is created and no suspend/resume call is issued on first creation.  When
it is found, the externally-managed replica sync runs, an update call is
issued when the differ or the subnet comparison demands it, and the process
delta is applied: a suspend call then a resume call, each for a non-empty
list only. -/
def reconcileNormal (env : ASGEnv) (m0 : MachinePoolScope) : NormalOutcome :=
  if m0.awsMachinePool.failureReason.isSome then ⟨m0, [], .ok ()⟩
  else
    let m := addFinalizer m0
    if !m.infrastructureReady then ⟨m, [], .ok ()⟩
    else if m.bootstrapDataSecretName.isNone then ⟨m, [], .ok ()⟩
    else
      match env.launchTemplateResult with
      | .error e => ⟨m, [CloudCall.reconcileLaunchTemplate], .error e⟩
      | .ok _ =>
        match env.getASGByName with
        | .error e => ⟨m, [CloudCall.reconcileLaunchTemplate], .error e⟩
        | .ok none =>
          ⟨m, [CloudCall.reconcileLaunchTemplate, CloudCall.createASG], .ok ()⟩
        | .ok (some asg) =>
          let m := syncExternallyManagedReplicas m asg
          let updateCalls :=
            if asgNeedsUpdates m asg || env.subnetsChanged then [CloudCall.updateASG] else []
          let delta := processDelta m.awsMachinePool.spec.suspendProcesses
            asg.currentlySuspendProcesses
          let suspendCalls :=
            (if delta.1.isEmpty then [] else [CloudCall.suspendProcesses asg.name delta.1]) ++
            (if delta.2.isEmpty then [] else [CloudCall.resumeProcesses asg.name delta.2])
          ⟨m, [CloudCall.reconcileLaunchTemplate] ++ updateCalls ++ suspendCalls, .ok ()⟩

/-- Outcome of a delete pass: the (possibly updated) scope, recorder events,
cloud calls, and the pass result. -/
structure DeleteOutcome where
  scope : MachinePoolScope
  events : List String
  calls : List CloudCall
  result : Except RErr Unit
deriving Repr

/-- Modelled from the spec: the delete reconciliation pass of the machine
pool controller (`reconcileDelete`; only its test is under `src/`).  A
lookup error is terminal with the finalizer retained; an absent group
removes only the pool-owned finalizer token, emits the not-found event and
returns success; a group already deleting sets ready to false and emits a
deletion-in-progress event; otherwise the delete call is issued and the
finalizer is left in place. -/
def reconcileDelete (lookup : Except RErr (Option AutoScalingGroup))
    (m : MachinePoolScope) : DeleteOutcome :=
  match lookup with
  | .error e => ⟨m, [], [], .error e⟩
  | .ok none => ⟨removeFinalizer m, ["ASGNotFound"], [], .ok ()⟩
  | .ok (some asg) =>
    if asg.status = some asgStatusDeleteInProgress then
      ⟨{ m with awsMachinePool := { m.awsMachinePool with statusReady := false } },
        ["DeletionInProgress"], [], .ok ()⟩
    else
      ⟨m, [], [CloudCall.deleteASG], .ok ()⟩

/-- Sample machine-pool scope matching the "all matches" test row. -/
def samplePoolScope : MachinePoolScope :=
  { machinePool := { annotations := [], spec := { replicas := some 1 } },
    awsMachinePool :=
      { finalizers := [],
        spec :=
          { minSize := 0, maxSize := 2, capacityRebalance := true,
            mixedInstancesPolicy :=
              some { instancesDistribution :=
                       some { onDemandAllocationStrategy := "prioritized" },
                     overrides := none },
            suspendProcesses := none, providerID := "" },
        statusReady := false, failureReason := none },
    infrastructureReady := true, bootstrapDataSecretName := some "bootstrap-data" }

/-- Sample observed scaling group agreeing with `samplePoolScope` on every
compared field. -/
def sampleASG : AutoScalingGroup :=
  { name := "an-asg", desiredCapacity := some 1, maxSize := 2, minSize := 0,
    capacityRebalance := true,
    mixedInstancesPolicy :=
      some { instancesDistribution :=
               some { onDemandAllocationStrategy := "prioritized" },
             overrides := none },
    currentlySuspendProcesses := [], subnets := [], status := none }

/-- Replace the annotations of the scope's machine pool, leaving every other
field unchanged. -/
def MachinePoolScope.withAnnotations (m : MachinePoolScope)
    (anns : List (String × String)) : MachinePoolScope :=
  { m with machinePool := { m.machinePool with annotations := anns } }

/-- Validation of the differ model against the `TestASGNeedsUpdates` table:
each single-field mismatch returns true, full agreement returns false, and
the externally-managed annotation suppresses only the replica mismatch. -/
theorem asgNeedsUpdates_test_table :
    asgNeedsUpdates samplePoolScope sampleASG = false ∧
    asgNeedsUpdates
      { samplePoolScope with
        machinePool := { annotations := [], spec := { replicas := some 0 } } }
      sampleASG = true ∧
    asgNeedsUpdates samplePoolScope { sampleASG with maxSize := 1 } = true ∧
    asgNeedsUpdates samplePoolScope { sampleASG with minSize := 1 } = true ∧
    asgNeedsUpdates samplePoolScope { sampleASG with capacityRebalance := false } = true ∧
    asgNeedsUpdates samplePoolScope
      { sampleASG with mixedInstancesPolicy :=
          (some { instancesDistribution := none, overrides := none }) } = true ∧
    asgNeedsUpdates samplePoolScope
      { sampleASG with currentlySuspendProcesses := ["Launch", "Terminate"] } = true ∧
    asgNeedsUpdates
      (samplePoolScope.withAnnotations
        [(replicasManagedByKey, externalAutoscalerAnnotationValue)])
      sampleASG = false := by
  decide

/-- C1: with the pool not externally managed, `asgNeedsUpdates` returns
false exactly when all six compared fields (replicas vs desired capacity
with unset treated as 0, max size, min size, capacity rebalance, deep
mixed-instances-policy equality, suspend-process set) agree; hence any
single mismatch with all others equal yields true, and full agreement
yields false. -/
theorem asgNeedsUpdates_false_iff_all_match (m : MachinePoolScope)
    (asg : AutoScalingGroup) (hext : replicasExternallyManaged m = false) :
    asgNeedsUpdates m asg = false ↔
      (m.machinePool.spec.replicas.getD 0 = asg.desiredCapacity.getD 0 ∧
       m.awsMachinePool.spec.maxSize = asg.maxSize ∧
       m.awsMachinePool.spec.minSize = asg.minSize ∧
       m.awsMachinePool.spec.capacityRebalance = asg.capacityRebalance ∧
       m.awsMachinePool.spec.mixedInstancesPolicy = asg.mixedInstancesPolicy ∧
       sameStringSet (resolveSuspendProcesses m.awsMachinePool.spec.suspendProcesses)
         asg.currentlySuspendProcesses = true) := by
  simp [asgNeedsUpdates, hext, and_assoc]

/-- Witness for C1 at the concrete all-matching pair. -/
theorem asgNeedsUpdates_false_iff_all_match_witness :
    asgNeedsUpdates samplePoolScope sampleASG = false :=
  (asgNeedsUpdates_false_iff_all_match samplePoolScope sampleASG (by decide)).mpr
    (by decide)

/-- C2: for a pair that differs only in the replica count vs the observed
desired capacity (all five other compared fields equal), `asgNeedsUpdates`
returns false when the machine pool carries the externally-managed
annotation and true when the annotation is absent. -/
theorem asgNeedsUpdates_externally_managed (m : MachinePoolScope)
    (asg : AutoScalingGroup)
    (hmax : m.awsMachinePool.spec.maxSize = asg.maxSize)
    (hmin : m.awsMachinePool.spec.minSize = asg.minSize)
    (hreb : m.awsMachinePool.spec.capacityRebalance = asg.capacityRebalance)
    (hpol : m.awsMachinePool.spec.mixedInstancesPolicy = asg.mixedInstancesPolicy)
    (hsus : sameStringSet (resolveSuspendProcesses m.awsMachinePool.spec.suspendProcesses)
              asg.currentlySuspendProcesses = true)
    (hmis : m.machinePool.spec.replicas.getD 0 ≠ asg.desiredCapacity.getD 0) :
    asgNeedsUpdates
      (m.withAnnotations
        [(replicasManagedByKey, externalAutoscalerAnnotationValue)]) asg = false ∧
    asgNeedsUpdates (m.withAnnotations []) asg = true := by
  constructor <;>
    simp [asgNeedsUpdates, MachinePoolScope.withAnnotations,
      replicasExternallyManaged, hmax, hmin, hreb, hpol, hsus, hmis]

/-- Witness for C2: a replica/desired-capacity divergence with all other
fields equal. -/
theorem asgNeedsUpdates_externally_managed_witness :
    asgNeedsUpdates
      ({ samplePoolScope with
         machinePool := { annotations := [], spec := { replicas := some 0 } } }.withAnnotations
        [(replicasManagedByKey, externalAutoscalerAnnotationValue)])
      sampleASG = false ∧
    asgNeedsUpdates
      ({ samplePoolScope with
         machinePool := { annotations := [], spec := { replicas := some 0 } } }.withAnnotations [])
      sampleASG = true :=
  asgNeedsUpdates_externally_managed
    { samplePoolScope with
      machinePool := { annotations := [], spec := { replicas := some 0 } } }
    sampleASG (by decide) (by decide) (by decide) (by decide) (by decide) (by decide)

/-- C4: `processDelta` computes toSuspend as the resolved desired set minus
the observed set and toResume as the observed set minus the desired set,
both deduplicated; concretely, desired {Launch, Terminate} against observed
{Launch, process3} yields toSuspend = {Terminate} and toResume =
{process3}. -/
theorem processDelta_set_difference (desired : Option SuspendProcessesTypes)
    (observed : List String) :
    (∀ x : String,
      (x ∈ (processDelta desired observed).1 ↔
        x ∈ resolveSuspendProcesses desired ∧ x ∉ observed) ∧
      (x ∈ (processDelta desired observed).2 ↔
        x ∈ observed ∧ x ∉ resolveSuspendProcesses desired)) ∧
    (processDelta desired observed).1.Nodup ∧
    (processDelta desired observed).2.Nodup ∧
    processDelta
      (some { all := false,
              processes := some
                { launch := some true, terminate := some true,
                  addToLoadBalancer := none, alarmNotification := none,
                  azRebalance := none, healthCheck := none,
                  instanceRefresh := none, replaceUnhealthy := none,
                  scheduledActions := none } })
      ["Launch", "process3"] = (["Terminate"], ["process3"]) := by
  refine ⟨fun x => ⟨?_, ?_⟩, ?_, ?_, by decide⟩
  · simp [processDelta, stringSetDifference, List.mem_dedup, List.mem_filter]
  · simp [processDelta, stringSetDifference, List.mem_dedup, List.mem_filter]
  · exact List.nodup_dedup _
  · exact List.nodup_dedup _

/-- Adding the finalizer touches only the finalizer list. -/
theorem addFinalizer_machinePool (m : MachinePoolScope) :
    (addFinalizer m).machinePool = m.machinePool := by
  unfold addFinalizer; split <;> rfl

/-- Adding the finalizer leaves the desired spec unchanged. -/
theorem addFinalizer_spec (m : MachinePoolScope) :
    (addFinalizer m).awsMachinePool.spec = m.awsMachinePool.spec := by
  unfold addFinalizer; split <;> rfl

/-- Adding the finalizer preserves the externally-managed flag. -/
theorem addFinalizer_externallyManaged (m : MachinePoolScope) :
    replicasExternallyManaged (addFinalizer m) = replicasExternallyManaged m := by
  unfold replicasExternallyManaged
  rw [addFinalizer_machinePool]

/-- After the externally-managed sync, the desired replica count agrees with
the observed desired capacity (unset treated as 0). -/
theorem syncExternallyManagedReplicas_post (m : MachinePoolScope)
    (asg : AutoScalingGroup) (hext : replicasExternallyManaged m = true) :
    (syncExternallyManagedReplicas m asg).machinePool.spec.replicas.getD 0 =
      asg.desiredCapacity.getD 0 := by
  unfold syncExternallyManagedReplicas
  rw [hext]
  by_cases h : m.machinePool.spec.replicas.getD 0 = asg.desiredCapacity.getD 0
  · simp [h]
  · simp [h]

/-- C5: on a normal pass over an externally managed pool whose scaling group
is found, the observed desired capacity is copied back into the desired
replica count: after the pass the desired replica count equals the observed
desired capacity. -/
theorem reconcileNormal_externally_managed_sync (env : ASGEnv)
    (m : MachinePoolScope) (asg : AutoScalingGroup)
    (hfail : m.awsMachinePool.failureReason = none)
    (hinfra : m.infrastructureReady = true)
    (hboot : m.bootstrapDataSecretName.isSome = true)
    (hlt : env.launchTemplateResult = .ok ())
    (hasg : env.getASGByName = .ok (some asg))
    (hext : replicasExternallyManaged m = true) :
    (reconcileNormal env m).scope.machinePool.spec.replicas.getD 0 =
      asg.desiredCapacity.getD 0 := by
  have hinfra' : (addFinalizer m).infrastructureReady = true := by
    unfold addFinalizer; split <;> simpa
  obtain ⟨v, hv⟩ : ∃ v, (addFinalizer m).bootstrapDataSecretName = some v := by
    have hb : (addFinalizer m).bootstrapDataSecretName = m.bootstrapDataSecretName := by
      unfold addFinalizer; split <;> rfl
    rw [hb]; exact Option.isSome_iff_exists.mp hboot
  have hext' : replicasExternallyManaged (addFinalizer m) = true := by
    rw [addFinalizer_externallyManaged]; exact hext
  have hgoal : (reconcileNormal env m).scope =
      syncExternallyManagedReplicas (addFinalizer m) asg := by
    simp [reconcileNormal, hfail, hlt, hasg, hinfra', hv]
  rw [hgoal]
  exact syncExternallyManagedReplicas_post (addFinalizer m) asg hext'

/-- Witness for C5: an externally managed pool with replicas 0 against an
observed desired capacity of 1. -/
theorem reconcileNormal_externally_managed_sync_witness :
    (reconcileNormal
      { launchTemplateResult := .ok (), getASGByName := .ok (some sampleASG),
        subnetsChanged := false }
      (samplePoolScope.withAnnotations
        [(replicasManagedByKey, externalAutoscalerAnnotationValue)])).scope.machinePool.spec.replicas.getD 0 =
      sampleASG.desiredCapacity.getD 0 :=
  reconcileNormal_externally_managed_sync
    { launchTemplateResult := .ok (), getASGByName := .ok (some sampleASG),
      subnetsChanged := false }
    (samplePoolScope.withAnnotations
      [(replicasManagedByKey, externalAutoscalerAnnotationValue)])
    sampleASG rfl rfl rfl rfl rfl (by decide)

/-- C7: a delete pass whose scaling-group lookup reports the group absent
(no error) removes only the pool-owned finalizer token, leaves the
membership of every other token unchanged, emits the not-found event and
returns success. -/
theorem reconcileDelete_asg_absent (lookup : Except RErr (Option AutoScalingGroup))
    (m : MachinePoolScope) (h : lookup = .ok none) :
    machinePoolFinalizer ∉
      (reconcileDelete lookup m).scope.awsMachinePool.finalizers ∧
    (∀ f : String, f ≠ machinePoolFinalizer →
      (f ∈ (reconcileDelete lookup m).scope.awsMachinePool.finalizers ↔
        f ∈ m.awsMachinePool.finalizers)) ∧
    "ASGNotFound" ∈ (reconcileDelete lookup m).events ∧
    (reconcileDelete lookup m).result = .ok () := by
  subst h
  refine ⟨?_, ?_, ?_, rfl⟩
  · simp [reconcileDelete, removeFinalizer, List.mem_filter]
  · intro f hf
    simp [reconcileDelete, removeFinalizer, List.mem_filter, hf]
  · simp [reconcileDelete]

/-- Witness for C7: the test fixture with the pool finalizer and the
foreground-deletion finalizer. -/
theorem reconcileDelete_asg_absent_witness :
    machinePoolFinalizer ∉
      (reconcileDelete (.ok none)
        { samplePoolScope with
          awsMachinePool :=
            { samplePoolScope.awsMachinePool with
              finalizers := [machinePoolFinalizer, "foregroundDeletion"] } }).scope.awsMachinePool.finalizers ∧
    ("foregroundDeletion" ∈
      (reconcileDelete (.ok none)
        { samplePoolScope with
          awsMachinePool :=
            { samplePoolScope.awsMachinePool with
              finalizers := [machinePoolFinalizer, "foregroundDeletion"] } }).scope.awsMachinePool.finalizers ↔
      "foregroundDeletion" ∈
        [machinePoolFinalizer, "foregroundDeletion"]) := by
  have h := reconcileDelete_asg_absent (.ok none)
    { samplePoolScope with
      awsMachinePool :=
        { samplePoolScope.awsMachinePool with
          finalizers := [machinePoolFinalizer, "foregroundDeletion"] } } rfl
  exact ⟨h.1, h.2.1 "foregroundDeletion" (by decide)⟩

/-- C8: on a normal pass whose scaling-group lookup reports the group absent
(so the group is freshly created), no suspend-processes or resume-processes
call is issued, whatever suspend directive the desired spec carries. -/
theorem reconcileNormal_fresh_create_no_suspend (env : ASGEnv)
    (m : MachinePoolScope) (h : env.getASGByName = .ok none) :
    ∀ name : String, ∀ ps : List String,
      CloudCall.suspendProcesses name ps ∉ (reconcileNormal env m).calls ∧
      CloudCall.resumeProcesses name ps ∉ (reconcileNormal env m).calls := by
  intro name ps
  rcases henv : env.launchTemplateResult with e | u <;>
    constructor <;>
      (simp only [reconcileNormal, h, henv]; split_ifs <;> simp)

/-- Witness for C8: a pool with a suspend directive for Launch and Terminate
whose group lookup finds nothing. -/
theorem reconcileNormal_fresh_create_no_suspend_witness :
    CloudCall.suspendProcesses "name" ["Launch", "Terminate"] ∉
      (reconcileNormal
        { launchTemplateResult := .ok (), getASGByName := .ok none,
          subnetsChanged := false }
        { samplePoolScope with
          awsMachinePool :=
            { samplePoolScope.awsMachinePool with
              spec :=
                { samplePoolScope.awsMachinePool.spec with
                  suspendProcesses :=
                    (some { all := false,
                            processes := some
                              { launch := some true, terminate := some true,
                                addToLoadBalancer := none, alarmNotification := none,
                                azRebalance := none, healthCheck := none,
                                instanceRefresh := none, replaceUnhealthy := none,
                                scheduledActions := none } }) } } }).calls ∧
    CloudCall.resumeProcesses "name" ["Launch", "Terminate"] ∉
      (reconcileNormal
        { launchTemplateResult := .ok (), getASGByName := .ok none,
          subnetsChanged := false }
        { samplePoolScope with
          awsMachinePool :=
            { samplePoolScope.awsMachinePool with
              spec :=
                { samplePoolScope.awsMachinePool.spec with
                  suspendProcesses :=
                    (some { all := false,
                            processes := some
                              { launch := some true, terminate := some true,
                                addToLoadBalancer := none, alarmNotification := none,
                                azRebalance := none, healthCheck := none,
                                instanceRefresh := none, replaceUnhealthy := none,
                                scheduledActions := none } }) } } }).calls :=
  reconcileNormal_fresh_create_no_suspend
    { launchTemplateResult := .ok (), getASGByName := .ok none,
      subnetsChanged := false }
    { samplePoolScope with
      awsMachinePool :=
        { samplePoolScope.awsMachinePool with
          spec :=
            { samplePoolScope.awsMachinePool.spec with
              suspendProcesses :=
                (some { all := false,
                        processes := some
                          { launch := some true, terminate := some true,
                            addToLoadBalancer := none, alarmNotification := none,
                            azRebalance := none, healthCheck := none,
                            instanceRefresh := none, replaceUnhealthy := none,
                            scheduledActions := none } }) } } }
    rfl "name" ["Launch", "Terminate"]

/-- Symbolic evaluation of `getDefaultSubnets` over three zones and an
IPv4-only VPC whose CIDR size is `12 * k`: four top-level blocks of size
`3k`; block 0 is split into the three public subnet CIDRs of size `k`, the
other three blocks become the private subnet CIDRs. -/
theorem getDefaultSubnets_three_eval (b k : Nat) (z1 z2 z3 : String) (vpc : VPCSpec)
    (sh : List String → List String)
    (hcidr : vpc.cidrBlock = ⟨b, 12 * k⟩) (hv6 : vpc.ipv6 = none)
    (hlim : vpc.availabilityZoneUsageLimit = none) :
    getDefaultSubnets vpc [z1, z2, z3] sh = .ok
      [⟨"", ⟨b, k⟩, none, z1, true, false, none, none, []⟩,
       ⟨"", ⟨b + 3 * k, 3 * k⟩, none, z1, false, false, none, none, []⟩,
       ⟨"", ⟨b + k, k⟩, none, z2, true, false, none, none, []⟩,
       ⟨"", ⟨b + 6 * k, 3 * k⟩, none, z2, false, false, none, none, []⟩,
       ⟨"", ⟨b + 2 * k, k⟩, none, z3, true, false, none, none, []⟩,
       ⟨"", ⟨b + 9 * k, 3 * k⟩, none, z3, false, false, none, none, []⟩] := by
  have hzones : defaultZones vpc [z1, z2, z3] sh = [z1, z2, z3] := by
    simp [defaultZones, hlim, defaultMaxNumAZs]
  have hsplit1 : splitIntoSubnetsIPv4 ⟨b, 12 * k⟩ 4 =
      some [⟨b, 3 * k⟩, ⟨b + 3 * k, 3 * k⟩, ⟨b + 6 * k, 3 * k⟩, ⟨b + 9 * k, 3 * k⟩] := by
    rw [splitIntoSubnetsIPv4, if_pos ⟨⟨3 * k, by ring⟩, by norm_num⟩]
    have hq : 12 * k / 4 = 3 * k := by omega
    simp [List.range_succ, hq]
    omega
  have hsplit2 : splitIntoSubnetsIPv4 ⟨b, 3 * k⟩ 3 =
      some [⟨b, k⟩, ⟨b + k, k⟩, ⟨b + 2 * k, k⟩] := by
    rw [splitIntoSubnetsIPv4, if_pos ⟨⟨k, by ring⟩, by norm_num⟩]
    have hq : 3 * k / 3 = k := by omega
    simp [List.range_succ, hq]
  simp only [getDefaultSubnets, hzones, hcidr, hv6, List.length_cons,
    List.length_nil]
  norm_num
  rw [hsplit1]
  norm_num
  rw [hsplit2]
  simp [buildZoneSubnets]

/-- C3: over a VPC IPv4 CIDR (size divisible into the equal partition) and
three distinct availability zones, `getDefaultSubnets` succeeds with exactly
3 public and 3 private subnets, one public and one private per zone, whose
CIDRs are pairwise non-overlapping and whose union is exactly the parent
CIDR block. -/
theorem getDefaultSubnets_three_zones (vpc : VPCSpec) (b s : Nat)
    (z1 z2 z3 : String) (sh : List String → List String)
    (hcidr : vpc.cidrBlock = ⟨b, s⟩) (hv6 : vpc.ipv6 = none)
    (hlim : vpc.availabilityZoneUsageLimit = none)
    (hdvd : 12 ∣ s) (hpos : 0 < s)
    (h12 : z1 ≠ z2) (h13 : z1 ≠ z3) (h23 : z2 ≠ z3) :
    ∃ subs : List SubnetSpec,
      getDefaultSubnets vpc [z1, z2, z3] sh = .ok subs ∧
      (subs.filter fun x => x.isPublic).length = 3 ∧
      (subs.filter fun x => !x.isPublic).length = 3 ∧
      (∀ z ∈ [z1, z2, z3],
        (subs.filter fun x => decide (x.availabilityZone = z) && x.isPublic).length = 1 ∧
        (subs.filter fun x => decide (x.availabilityZone = z) && !x.isPublic).length = 1) ∧
      (subs.map SubnetSpec.cidrBlock).Pairwise CidrBlock.disjointWith ∧
      (∀ a : Nat, (∃ c ∈ subs.map SubnetSpec.cidrBlock, c.containsAddr a) ↔
        b ≤ a ∧ a < b + s) := by
  obtain ⟨k, rfl⟩ := hdvd
  have heval := getDefaultSubnets_three_eval b k z1 z2 z3 vpc sh hcidr hv6 hlim
  refine ⟨_, heval, rfl, rfl, ?_, ?_, ?_⟩
  · intro z hz
    simp only [List.mem_cons, List.not_mem_nil, or_false] at hz
    rcases hz with rfl | rfl | rfl <;>
      constructor <;>
        simp [List.filter_cons, h12, h13, h23, h12.symm, h13.symm, h23.symm]
  · simp only [List.map_cons, List.map_nil]
    have hk : 0 < k := by omega
    simp [List.pairwise_cons, CidrBlock.disjointWith]
    omega
  · intro a
    simp [CidrBlock.containsAddr]
    omega

/-- Sample managed VPC for the subnet-planner theorems. -/
def sampleVPC : VPCSpec :=
  { id := "vpc-1", cidrBlock := ⟨0, 12⟩, ipv6 := none,
    availabilityZoneUsageLimit := none, availabilityZoneSelection := none,
    ownedTag := true }

/-- Witness for C3 at a concrete VPC CIDR and three concrete zones. -/
theorem getDefaultSubnets_three_zones_witness :
    ∃ subs : List SubnetSpec,
      getDefaultSubnets sampleVPC ["us-east-1a", "us-east-1b", "us-east-1c"] id = .ok subs ∧
      (subs.filter fun x => x.isPublic).length = 3 ∧
      (subs.filter fun x => !x.isPublic).length = 3 ∧
      (∀ z ∈ ["us-east-1a", "us-east-1b", "us-east-1c"],
        (subs.filter fun x => decide (x.availabilityZone = z) && x.isPublic).length = 1 ∧
        (subs.filter fun x => decide (x.availabilityZone = z) && !x.isPublic).length = 1) ∧
      (subs.map SubnetSpec.cidrBlock).Pairwise CidrBlock.disjointWith ∧
      (∀ a : Nat, (∃ c ∈ subs.map SubnetSpec.cidrBlock, c.containsAddr a) ↔
        0 ≤ a ∧ a < 0 + 12) :=
  getDefaultSubnets_three_zones sampleVPC 0 12 "us-east-1a" "us-east-1b"
    "us-east-1c" id rfl rfl rfl (by decide) (by decide) (by decide) (by decide)
    (by decide)

theorem ensureTagsLoopGo_length (u : Bool) (t : String → Bool)
    (ex : List SubnetSpec) :
    ∀ (is : List Nat) (subnets : List SubnetSpec) (events : List String),
      ((ensureTagsLoopGo u t ex is subnets events).1).length = subnets.length := by
  intro is
  induction is with
  | nil => intro subnets events; rfl
  | cons i rest ih =>
    intro subnets events
    cases hsub : subnets[i]? with
    | none => simp [ensureTagsLoopGo, hsub]
    | some sub =>
      cases hfind : findEqual ex sub with
      | some e =>
        by_cases hfails : t e.id = true
        · cases u <;> simp [ensureTagsLoopGo, hsub, hfind, hfails]
        · simp [ensureTagsLoopGo, hsub, hfind, hfails, ih, List.length_set]
      | none =>
        cases u <;> simp [ensureTagsLoopGo, hsub, hfind, ih]

theorem ensureTagsLoopGo_first_failure (u : Bool) (t : String → Bool)
    (ex : List SubnetSpec) :
    ∀ (is : List Nat) (subnets : List SubnetSpec) (events : List String),
      is.Nodup →
      (∀ j ∈ is, ∃ hj : j < subnets.length, (findEqual ex subnets[j]).isSome) →
      (∃ j ∈ is, ∃ hj : j < subnets.length, ∃ e,
        findEqual ex subnets[j] = some e ∧ t e.id = true) →
      (ensureTagsLoopGo u t ex is subnets events).2.2 =
        (if u then none else some (.failure "failed to ensure tags on subnet")) ∧
      "FailedTagSubnet" ∈ (ensureTagsLoopGo u t ex is subnets events).2.1 := by
  intro is
  induction is with
  | nil =>
    intro subnets events _ _ hfail
    simp at hfail
  | cons i rest ih =>
    intro subnets events hnodup hmatch hfail
    obtain ⟨hi, hisome⟩ := hmatch i (by simp)
    have hidx : subnets[i]? = some subnets[i] := List.getElem?_eq_getElem hi
    obtain ⟨e, he⟩ := Option.isSome_iff_exists.mp hisome
    by_cases hfails : t e.id = true
    · cases u <;> simp [ensureTagsLoopGo, hidx, he, hfails]
    · have hstep : ensureTagsLoopGo u t ex (i :: rest) subnets events =
          ensureTagsLoopGo u t ex rest (subnets.set i e) events := by
        simp [ensureTagsLoopGo, hidx, he, hfails]
      rw [hstep]
      have hnodup' := List.Nodup.of_cons hnodup
      have hinotmem : i ∉ rest := (List.nodup_cons.mp hnodup).1
      apply ih _ _ hnodup'
      · intro j hj
        have hji : j ≠ i := fun h => hinotmem (h ▸ hj)
        obtain ⟨hjlen, hjsome⟩ := hmatch j (List.mem_cons_of_mem _ hj)
        refine ⟨by simpa [List.length_set] using hjlen, ?_⟩
        rw [List.getElem_set_ne (Ne.symm hji)]
        exact hjsome
      · obtain ⟨j, hjmem, hjlen, e2, hfind2, hfails2⟩ := hfail
        have hji : j ≠ i := by
          rintro rfl
          rw [hfind2] at he
          cases he
          exact hfails hfails2
        have hjmem' : j ∈ rest := by
          rcases List.mem_cons.mp hjmem with h | h
          · exact absurd h hji
          · exact h
        refine ⟨j, hjmem', by simpa [List.length_set] using hjlen, e2, ?_, hfails2⟩
        rw [List.getElem_set_ne (Ne.symm hji)]
        exact hfind2

theorem reconcileSubnets_eq_core (env : NetworkEnv) (scope : NetworkScope)
    (ex : List SubnetSpec) (hdesc : env.describeResult = .ok ex)
    (hne : scope.subnets.isEmpty = false) :
    reconcileSubnets env scope =
      reconcileSubnetsCore env scope scope.subnets [] ex := by
  unfold reconcileSubnets reconcileSubnetsDefaults reconcileSubnetsMain
  cases htag : scope.tagUnmanagedNetworkResources <;> simp [hdesc, hne]

theorem reconcileSubnets_tagging_failure (env : NetworkEnv)
    (scope : NetworkScope) (ex : List SubnetSpec)
    (hdesc : env.describeResult = .ok ex)
    (hsec : scope.secondaryCidrBlock = none)
    (hne : scope.subnets ≠ [])
    (hmatch : ∀ sub ∈ scope.subnets, (findEqual ex sub).isSome)
    (hfail : ∃ sub ∈ scope.subnets, ∃ e,
      findEqual ex sub = some e ∧ env.tagFails e.id = true) :
    "FailedTagSubnet" ∈ (reconcileSubnets env scope).events ∧
    (scope.vpc.isUnmanaged = true → (reconcileSubnets env scope).result = .ok ()) ∧
    (scope.vpc.isUnmanaged = false →
      (reconcileSubnets env scope).result =
        .error (.failure "failed to ensure tags on subnet")) := by
  have hne' : scope.subnets.isEmpty = false := by
    simpa [List.isEmpty_iff] using hne
  rw [reconcileSubnets_eq_core env scope ex hdesc hne']
  have hsecphase : secondaryPhase env scope scope.subnets ex =
      (scope.subnets, none) := by
    simp [secondaryPhase, hsec]
  -- convert the membership hypotheses to indexed form over `List.range`
  have hmatch' : ∀ j ∈ List.range scope.subnets.length,
      ∃ hj : j < scope.subnets.length, (findEqual ex scope.subnets[j]).isSome := by
    intro j hj
    have hjlen : j < scope.subnets.length := List.mem_range.mp hj
    exact ⟨hjlen, hmatch _ (List.getElem_mem hjlen)⟩
  have hfail' : ∃ j ∈ List.range scope.subnets.length,
      ∃ hj : j < scope.subnets.length, ∃ e,
        findEqual ex scope.subnets[j] = some e ∧ env.tagFails e.id = true := by
    obtain ⟨sub, hsubmem, e, hfind, hfails⟩ := hfail
    obtain ⟨j, hjlen, hjeq⟩ := List.mem_iff_getElem.mp hsubmem
    exact ⟨j, List.mem_range.mpr hjlen, hjlen, e, by rw [hjeq]; exact hfind, hfails⟩
  cases hu : scope.vpc.isUnmanaged with
  | true =>
    have hloop := ensureTagsLoopGo_first_failure true env.tagFails ex
      (List.range scope.subnets.length) scope.subnets [] (List.nodup_range _)
      hmatch' hfail'
    rcases hL : ensureTagsLoopGo true env.tagFails ex
        (List.range scope.subnets.length) scope.subnets [] with ⟨s2, ev2, err2⟩
    rw [hL] at hloop
    simp only [if_true] at hloop
    obtain ⟨herr2, hmem2⟩ := hloop
    have hlen2 : s2.length = scope.subnets.length := by
      have := ensureTagsLoopGo_length true env.tagFails ex
        (List.range scope.subnets.length) scope.subnets []
      rw [hL] at this
      exact this
    have hcheck : subnetCountChecks true s2 = none := by
      have : ¬ s2.length < 1 := by
        rw [hlen2]
        have := List.length_pos.mpr hne
        omega
      simp [subnetCountChecks, this]
    simp only [reconcileSubnetsCore, hu, hsecphase, ensureTagsLoop, hL,
      herr2, hcheck]
    exact ⟨hmem2, fun _ => rfl, fun h => by simp at h⟩
  | false =>
    have hloop := ensureTagsLoopGo_first_failure false env.tagFails ex
      (List.range scope.subnets.length) scope.subnets [] (List.nodup_range _)
      hmatch' hfail'
    rcases hL : ensureTagsLoopGo false env.tagFails ex
        (List.range scope.subnets.length) scope.subnets [] with ⟨s2, ev2, err2⟩
    rw [hL] at hloop
    simp only [if_false] at hloop
    obtain ⟨herr2, hmem2⟩ := hloop
    simp only [reconcileSubnetsCore, hu, hsecphase, ensureTagsLoop, hL, herr2]
    exact ⟨hmem2, fun h => by simp at h, fun _ => rfl⟩

/-- Sample desired subnet for the tagging-failure witness. -/
def sampleDesiredSubnet : SubnetSpec :=
  { id := "", cidrBlock := ⟨0, 3⟩, ipv6CidrBlock := none,
    availabilityZone := "us-east-1a", isPublic := false, isIPv6 := false,
    routeTableID := none, natGatewayID := none, tags := [] }

/-- Sample observed subnet matching `sampleDesiredSubnet` by (CIDR, zone). -/
def sampleObservedSubnet : SubnetSpec :=
  { id := "subnet-1", cidrBlock := ⟨0, 3⟩, ipv6CidrBlock := none,
    availabilityZone := "us-east-1a", isPublic := false, isIPv6 := false,
    routeTableID := none, natGatewayID := none, tags := [] }

/-- Sample unmanaged-VPC scope with one declared subnet. -/
def sampleUnmanagedScope : NetworkScope :=
  { name := "test", subnets := [sampleDesiredSubnet],
    vpc := { sampleVPC with ownedTag := false }, secondaryCidrBlock := none,
    tagUnmanagedNetworkResources := true }

/-- Sample environment in which tagging always fails. -/
def sampleTagFailEnv : NetworkEnv :=
  { describeResult := .ok [sampleObservedSubnet], zones := .ok [], shuffle := id,
    tagFails := fun _ => true, patchResult := .ok (),
    createResult := fun s => .ok s }

/-- Witness for C6: an unmanaged VPC whose single matched subnet fails to
tag still completes the pass with a warning event. -/
theorem reconcileSubnets_tagging_failure_witness :
    "FailedTagSubnet" ∈ (reconcileSubnets sampleTagFailEnv sampleUnmanagedScope).events ∧
    (sampleUnmanagedScope.vpc.isUnmanaged = true →
      (reconcileSubnets sampleTagFailEnv sampleUnmanagedScope).result = .ok ()) ∧
    (sampleUnmanagedScope.vpc.isUnmanaged = false →
      (reconcileSubnets sampleTagFailEnv sampleUnmanagedScope).result =
        .error (.failure "failed to ensure tags on subnet")) :=
  reconcileSubnets_tagging_failure sampleTagFailEnv sampleUnmanagedScope
    [sampleObservedSubnet] rfl rfl (by decide) (by decide) (by decide)

/-- Sample managed scope with no declared subnets. -/
def sampleManagedScope : NetworkScope :=
  { name := "test", subnets := [], vpc := sampleVPC,
    secondaryCidrBlock := none, tagUnmanagedNetworkResources := false }

/-- Sample environment whose subnet-creation call always fails. -/
def sampleCreateFailEnv : NetworkEnv :=
  { describeResult := .ok [], zones := .ok ["us-east-1a", "us-east-1b", "us-east-1c"],
    shuffle := id, tagFails := fun _ => false, patchResult := .ok (),
    createResult := fun _ => .error (.failure "failed to create subnet") }

/-- C9: the `subnets` component of a `reconcileSubnets` outcome is by
construction the value the deferred `SetSubnets` writes back into the scope
on every return path, error returns included.  Consequently the pass is not
atomic: here a pass that fails (subnet creation errors out) still replaces
the scope's empty subnet list with the six freshly planned default
subnets. -/
theorem reconcileSubnets_nonatomic_on_error :
    (reconcileSubnets sampleCreateFailEnv sampleManagedScope).result =
      .error (.failure "failed to create subnet") ∧
    (reconcileSubnets sampleCreateFailEnv sampleManagedScope).subnets ≠
      sampleManagedScope.subnets ∧
    (reconcileSubnets sampleCreateFailEnv sampleManagedScope).subnets.length = 6 := by
  refine ⟨rfl, ?_, rfl⟩
  decide

theorem appendSecondary_panic (ex : List SubnetSpec) (zs : List String) :
    ∀ (cidrs : List CidrBlock) (i : Nat) (subnets : List SubnetSpec),
      cidrs ≠ [] → zs.length < i + cidrs.length →
      (appendSecondary ex zs i cidrs subnets).2 = some .panicIndex := by
  intro cidrs
  induction cidrs with
  | nil => intro i subnets hne; exact absurd rfl hne
  | cons c rest ih =>
    intro i subnets _ hlen
    cases hz : zs[i]? with
    | none => simp [appendSecondary, hz]
    | some z =>
      have hi : i < zs.length := by
        by_contra h
        rw [List.getElem?_eq_none (by omega)] at hz
        cases hz
      have hrne : rest ≠ [] := by
        intro h
        subst h
        simp at hlen
        omega
      simp only [appendSecondary, hz]
      apply ih _ _ hrne
      simp at hlen ⊢
      omega

theorem appendSecondary_ok (ex : List SubnetSpec) (zs : List String) :
    ∀ (cidrs : List CidrBlock) (i : Nat) (subnets : List SubnetSpec),
      i + cidrs.length ≤ zs.length →
      (appendSecondary ex zs i cidrs subnets).2 = none := by
  intro cidrs
  induction cidrs with
  | nil => intro i subnets _; rfl
  | cons c rest ih =>
    intro i subnets hlen
    have hi : i < zs.length := by simp at hlen; omega
    have hz : zs[i]? = some zs[i] := List.getElem?_eq_getElem hi
    simp only [appendSecondary, hz]
    apply ih
    simp at hlen ⊢
    omega

theorem reconcileSubnets_secondary_totality (env : NetworkEnv)
    (scope : NetworkScope) (ex : List SubnetSpec) (sec : CidrBlock)
    (hdesc : env.describeResult = .ok ex)
    (hne : scope.subnets ≠ [])
    (hsec : scope.secondaryCidrBlock = some sec) :
    (scope.vpc.availabilityZoneUsageLimit = none →
      (reconcileSubnets env scope).result = .error .panicNilDeref) ∧
    (∀ (lim : Nat) (cidrs : List CidrBlock) (zs : List String),
      scope.vpc.availabilityZoneUsageLimit = some lim →
      splitIntoSubnetsIPv4 sec lim = some cidrs → env.zones = .ok zs →
      zs.length < cidrs.length →
      (reconcileSubnets env scope).result = .error .panicIndex) ∧
    (∀ (lim : Nat) (cidrs : List CidrBlock) (zs : List String),
      scope.vpc.availabilityZoneUsageLimit = some lim →
      splitIntoSubnetsIPv4 sec lim = some cidrs → env.zones = .ok zs →
      cidrs.length ≤ zs.length →
      (secondaryPhase env scope scope.subnets ex).2 = none) := by
  have hne' : scope.subnets.isEmpty = false := by
    simpa [List.isEmpty_iff] using hne
  refine ⟨?_, ?_, ?_⟩
  · intro hlim
    rw [reconcileSubnets_eq_core env scope ex hdesc hne']
    have hphase : secondaryPhase env scope scope.subnets ex =
        (scope.subnets, some .panicNilDeref) := by
      simp [secondaryPhase, hsec, hlim]
    simp [reconcileSubnetsCore, hphase]
  · intro lim cidrs zs hlim hsplit hzs hlt
    rw [reconcileSubnets_eq_core env scope ex hdesc hne']
    have hcne : cidrs ≠ [] := by
      intro h
      subst h
      simp at hlt
    have hphase : secondaryPhase env scope scope.subnets ex =
        appendSecondary ex zs 0 cidrs scope.subnets := by
      simp [secondaryPhase, hsec, hlim, hsplit, hzs]
    have hpanic := appendSecondary_panic ex zs cidrs 0 scope.subnets hcne
      (by omega)
    rcases happ : appendSecondary ex zs 0 cidrs scope.subnets with ⟨l, err⟩
    rw [happ] at hpanic hphase
    simp at hpanic
    simp [reconcileSubnetsCore, hphase, hpanic]
  · intro lim cidrs zs hlim hsplit hzs hle
    have hphase : secondaryPhase env scope scope.subnets ex =
        appendSecondary ex zs 0 cidrs scope.subnets := by
      simp [secondaryPhase, hsec, hlim, hsplit, hzs]
    rw [hphase]
    exact appendSecondary_ok ex zs cidrs 0 scope.subnets (by omega)

/-- Sample scope with a secondary CIDR block configured but no
availability-zone usage limit set. -/
def sampleSecondaryScope : NetworkScope :=
  { name := "test", subnets := [sampleDesiredSubnet], vpc := sampleVPC,
    secondaryCidrBlock := some ⟨100, 4⟩, tagUnmanagedNetworkResources := false }

/-- Witness for C10: a configured secondary CIDR with a nil usage limit
panics the pass. -/
theorem reconcileSubnets_secondary_totality_witness :
    (sampleSecondaryScope.vpc.availabilityZoneUsageLimit = none →
      (reconcileSubnets sampleCreateFailEnv sampleSecondaryScope).result =
        .error .panicNilDeref) ∧
    (reconcileSubnets sampleCreateFailEnv sampleSecondaryScope).result =
      .error .panicNilDeref :=
  have h := reconcileSubnets_secondary_totality sampleCreateFailEnv
    sampleSecondaryScope [] ⟨100, 4⟩ rfl (by decide) rfl
  ⟨h.1, h.1 rfl⟩
